import Mathlib

/-!
Shallow embedding of the rustls TLS server-configuration builder from
`crates/core/src/conn/rustls/config.rs` (salvo).

Modelling choices:
- Byte buffers (`Vec<u8>`) are `List Nat`.
- File paths are `String`; the filesystem is a function `String → Except TlsError Bytes`
  standing for `File::open` + `read_to_end` (either may fail; the model returns the
  whole contents or an error).
- The external `rustls_pemfile` / `rustls::sign` / `read_trust_anchor` functions are
  not part of this repository; they are parameters gathered in a `Parsers` structure,
  so every theorem is universally quantified over their behavior.
- Rust methods taking `&mut self` are state-passing: they return the updated `Keycert`
  together with the number of file reads performed (needed for the at-most-once
  caching property).
- `Err(...)` / `?` propagation is `Except TlsError`.
- `HashMap<String, _>` is an association list with overwriting insert; iteration order
  of the map is determinized to list order.
-/

namespace Salvo

/-- Decidable equality for `Except`, so that concrete runs of the embedded
operations can be checked by `decide`. -/
instance {ε α : Type} [DecidableEq ε] [DecidableEq α] : DecidableEq (Except ε α) := fun x y =>
  match x, y with
  | .ok a, .ok b =>
    if h : a = b then .isTrue (by rw [h]) else .isFalse (fun hh => h (Except.ok.inj hh))
  | .error a, .error b =>
    if h : a = b then .isTrue (by rw [h]) else .isFalse (fun hh => h (Except.error.inj hh))
  | .ok _, .error _ => .isFalse (fun hh => Except.noConfusion hh)
  | .error _, .ok _ => .isFalse (fun hh => Except.noConfusion hh)

/-- A byte buffer (`Vec<u8>`). -/
abbrev Bytes := List Nat

/-- Errors of the module: every error in the source is an `io::Error`, either a
propagated OS-level I/O failure or `IoError::new(ErrorKind::Other, msg)`. -/
inductive TlsError where
  | io : TlsError
  | other : String → TlsError
deriving DecidableEq

/-- The filesystem: reading the whole file at a path, or failing. -/
abbrev FS := String → Except TlsError Bytes

/-- External parsing functions used by the module (the `rustls_pemfile`,
`rustls::sign::any_supported_type` and `read_trust_anchor` collaborators, which live
outside this file in the source). Their error payloads are discarded by the module
(`map_err`), except `read_trust_anchor` whose error is propagated with `?`. -/
structure Parsers where
  certs : Bytes → Except Unit (List Bytes)
  pkcs8_private_keys : Bytes → Except Unit (List Bytes)
  rsa_private_keys : Bytes → Except Unit (List Bytes)
  any_supported_type : Bytes → Except Unit Bytes
  read_trust_anchor : Bytes → Except TlsError Bytes

/-- `Keycert`: private key and certificate (buffers plus optional file paths). -/
structure Keycert where
  key_path : Option String
  key : Bytes
  cert_path : Option String
  cert : Bytes
  ocsp_resp : Bytes
deriving DecidableEq

/-- `Keycert::new`. -/
def Keycert.new : Keycert :=
  { key_path := none, key := [], cert_path := none, cert := [], ocsp_resp := [] }

/-- `Keycert::with_key_path`. -/
def Keycert.with_key_path (kc : Keycert) (p : String) : Keycert :=
  { kc with key_path := some p }

/-- `Keycert::with_key`. -/
def Keycert.with_key (kc : Keycert) (k : Bytes) : Keycert :=
  { kc with key := k }

/-- `Keycert::with_cert_path`. -/
def Keycert.with_cert_path (kc : Keycert) (p : String) : Keycert :=
  { kc with cert_path := some p }

/-- `Keycert::with_cert`. -/
def Keycert.with_cert (kc : Keycert) (c : Bytes) : Keycert :=
  { kc with cert := c }

/-- `Keycert::key` (getter, `&mut self`): if the buffer is empty and a path is set,
read the file into the buffer; then fail with "empty key" if the buffer is still
empty. Returns (result, updated keycert, number of file reads performed). -/
def Keycert.get_key (fs : FS) (kc : Keycert) : Except TlsError Bytes × Keycert × Nat :=
  match kc.key, kc.key_path with
  | [], some path =>
    match fs path with
    | .error e => (.error e, kc, 1)
    | .ok [] => (.error (.other "empty key"), kc, 1)
    | .ok data => (.ok data, { kc with key := data }, 1)
  | [], none => (.error (.other "empty key"), kc, 0)
  | _ :: _, _ => (.ok kc.key, kc, 0)

/-- `Keycert::cert` (getter, `&mut self`): symmetric to `get_key`. -/
def Keycert.get_cert (fs : FS) (kc : Keycert) : Except TlsError Bytes × Keycert × Nat :=
  match kc.cert, kc.cert_path with
  | [], some path =>
    match fs path with
    | .error e => (.error e, kc, 1)
    | .ok [] => (.error (.other "empty cert"), kc, 1)
    | .ok data => (.ok data, { kc with cert := data }, 1)
  | [], none => (.error (.other "empty cert"), kc, 0)
  | _ :: _, _ => (.ok kc.cert, kc, 0)

/-- `Keycert::ocsp_resp` (read-only accessor). -/
def Keycert.get_ocsp_resp (kc : Keycert) : Bytes :=
  kc.ocsp_resp

/-- A materialized identity (`rustls::sign::CertifiedKey`): parsed certificate
chain, the signing key produced by `any_supported_type`, optional OCSP staple,
and SCT list. -/
structure CertifiedKey where
  cert : List Bytes
  key : Bytes
  ocsp : Option Bytes
  sct_list : Option Bytes
deriving DecidableEq

/-- The `let key = { ... }` block of `Keycert::build_certified_key`: obtain key
bytes, try PKCS8 first and take the first key (`pkcs8.remove(0)`); if PKCS8 yields
no keys, obtain key bytes again and try RSA, taking the first key; fail with
"failed to parse tls private keys" when a parser errors or neither yields a key. -/
def Keycert.parse_private_key (P : Parsers) (fs : FS) (kc : Keycert) :
    Except TlsError Bytes × Keycert × Nat :=
  match Keycert.get_key fs kc with
  | (.error e, kc, r) => (.error e, kc, r)
  | (.ok kb, kc, r) =>
    match P.pkcs8_private_keys kb with
    | .error _ => (.error (.other "failed to parse tls private keys"), kc, r)
    | .ok (k :: _) => (.ok k, kc, r)
    | .ok [] =>
      match Keycert.get_key fs kc with
      | (.error e, kc, r2) => (.error e, kc, r + r2)
      | (.ok kb2, kc, r2) =>
        match P.rsa_private_keys kb2 with
        | .error _ => (.error (.other "failed to parse tls private keys"), kc, r + r2)
        | .ok (k :: _) => (.ok k, kc, r + r2)
        | .ok [] => (.error (.other "failed to parse tls private keys"), kc, r + r2)

/-- `Keycert::build_certified_key`: parse the certificate chain, select the private
key (PKCS8 first, then RSA), build the signing key with `any_supported_type`, attach
OCSP bytes only when non-empty, never attach an SCT list. -/
def Keycert.build_certified_key (P : Parsers) (fs : FS) (kc : Keycert) :
    Except TlsError CertifiedKey × Keycert × Nat :=
  match Keycert.get_cert fs kc with
  | (.error e, kc, r) => (.error e, kc, r)
  | (.ok cb, kc, r) =>
    match P.certs cb with
    | .error _ => (.error (.other "failed to parse tls certificates"), kc, r)
    | .ok certList =>
      match Keycert.parse_private_key P fs kc with
      | (.error e, kc, r2) => (.error e, kc, r + r2)
      | (.ok k, kc, r2) =>
        match P.any_supported_type k with
        | .error _ => (.error (.other "invalid private key"), kc, r + r2)
        | .ok sk =>
          (.ok { cert := certList, key := sk,
                 ocsp := if kc.ocsp_resp.isEmpty then none else some kc.ocsp_resp,
                 sct_list := none }, kc, r + r2)

/-- `TlsClientAuth`: client authentication configuration. -/
inductive TlsClientAuth where
  | Off : TlsClientAuth
  | Optional : Bytes → TlsClientAuth
  | Required : Bytes → TlsClientAuth
deriving DecidableEq

/-- The client-certificate verifier produced for a `TlsClientAuth` value
(`NoClientAuth` / `AllowAnyAnonymousOrAuthenticatedClient` /
`AllowAnyAuthenticatedClient`, carrying the parsed trust-anchor store). -/
inductive ClientCertVerifier where
  | noClientAuth : ClientCertVerifier
  | anonymousOrAuthenticated : Bytes → ClientCertVerifier
  | authenticated : Bytes → ClientCertVerifier
deriving DecidableEq

/-- Association-list lookup, the model of `HashMap::get`. -/
def lookupAssoc {α : Type} : List (String × α) → String → Option α
  | [], _ => none
  | (n, v) :: rest, name => if n = name then some v else lookupAssoc rest name

/-- Association-list overwriting insert, the model of `HashMap::insert`. -/
def insertAssoc {α : Type} : List (String × α) → String → α → List (String × α)
  | [], name, v => [(name, v)]
  | (n, w) :: rest, name, v =>
    if n = name then (name, v) :: rest else (n, w) :: insertAssoc rest name v

/-- `RustlsConfig`: the builder state. -/
structure RustlsConfig where
  fallback : Option Keycert
  keycerts : List (String × Keycert)
  client_auth : TlsClientAuth
deriving DecidableEq

/-- `RustlsConfig::new`. -/
def RustlsConfig.new (fallback : Option Keycert) : RustlsConfig :=
  { fallback := fallback, keycerts := [], client_auth := .Off }

/-- `RustlsConfig::client_auth_optional_path`: reads the file eagerly. -/
def RustlsConfig.client_auth_optional_path (fs : FS) (c : RustlsConfig) (p : String) :
    Except TlsError RustlsConfig :=
  (fs p).map fun data => { c with client_auth := .Optional data }

/-- `RustlsConfig::client_auth_optional`. -/
def RustlsConfig.client_auth_optional (c : RustlsConfig) (ta : Bytes) : RustlsConfig :=
  { c with client_auth := .Optional ta }

/-- `RustlsConfig::client_auth_required_path`: reads the file eagerly. -/
def RustlsConfig.client_auth_required_path (fs : FS) (c : RustlsConfig) (p : String) :
    Except TlsError RustlsConfig :=
  (fs p).map fun data => { c with client_auth := .Required data }

/-- `RustlsConfig::client_auth_required`. -/
def RustlsConfig.client_auth_required (c : RustlsConfig) (ta : Bytes) : RustlsConfig :=
  { c with client_auth := .Required ta }

/-- `RustlsConfig::keycert`: register an identity under an SNI name
(`HashMap::insert`, overwriting). -/
def RustlsConfig.keycert (c : RustlsConfig) (name : String) (kc : Keycert) : RustlsConfig :=
  { c with keycerts := insertAssoc c.keycerts name kc }

/-- `CertResolver`: the runtime SNI resolver. -/
structure CertResolver where
  fallback : Option CertifiedKey
  certified_keys : List (String × CertifiedKey)
deriving DecidableEq

/-- `CertResolver::resolve` (`ResolvesServerCert`): look up the client-supplied
server name in the map, falling back to the fallback identity
(`client_hello.server_name().and_then(get).or_else(fallback)`). -/
def CertResolver.resolve (r : CertResolver) (server_name : Option String) :
    Option CertifiedKey :=
  match server_name.bind (fun n => lookupAssoc r.certified_keys n) with
  | some ck => some ck
  | none => r.fallback

/-- The produced `ServerConfig` (only the fields this module sets). -/
structure ServerConfig where
  client_auth : ClientCertVerifier
  cert_resolver : CertResolver
  alpn_protocols : List String
deriving DecidableEq

/-- Fallback materialization inside `build_server_config`
(`self.fallback.as_mut().map(build_certified_key).transpose()?`). -/
def materialize_fallback (P : Parsers) (fs : FS) :
    Option Keycert → Except TlsError (Option CertifiedKey)
  | none => .ok none
  | some kc =>
    match (Keycert.build_certified_key P fs kc).1 with
    | .error e => .error e
    | .ok ck => .ok (some ck)

/-- The materialization loop of `build_server_config`: materialize every registered
entry, aborting on the first failure (`build_certified_key()?` inside the `for`). -/
def materialize_all (P : Parsers) (fs : FS) :
    List (String × Keycert) → Except TlsError (List (String × CertifiedKey))
  | [] => .ok []
  | (n, kc) :: rest =>
    match (Keycert.build_certified_key P fs kc).1 with
    | .error e => .error e
    | .ok ck =>
      match materialize_all P fs rest with
      | .error e => .error e
      | .ok cks => .ok ((n, ck) :: cks)

/-- Client-auth materialization inside `build_server_config`
(`NoClientAuth` / `read_trust_anchor(trust_anchor)?`). -/
def materialize_client_auth (P : Parsers) : TlsClientAuth → Except TlsError ClientCertVerifier
  | .Off => .ok .noClientAuth
  | .Optional ta => (P.read_trust_anchor ta).map .anonymousOrAuthenticated
  | .Required ta => (P.read_trust_anchor ta).map .authenticated

/-- `RustlsConfig::build_server_config`: materialize the fallback, every registered
identity, and the client-auth verifier (each failure aborts with `?`), then assemble
the configuration with ALPN `["h2", "http/1.1"]`. -/
def RustlsConfig.build_server_config (P : Parsers) (fs : FS) (c : RustlsConfig) :
    Except TlsError ServerConfig :=
  match materialize_fallback P fs c.fallback with
  | .error e => .error e
  | .ok fb =>
    match materialize_all P fs c.keycerts with
    | .error e => .error e
    | .ok cks =>
      match materialize_client_auth P c.client_auth with
      | .error e => .error e
      | .ok ca =>
        .ok { client_auth := ca,
              cert_resolver := { fallback := fb, certified_keys := cks },
              alpn_protocols := ["h2", "http/1.1"] }

/-- `impl From<RustlsConfig> for Arc<ServerConfig>`:
`rustls_config.build_server_config().unwrap().into()`. The `unwrap()` panics on a
build error; the panic is modelled as `none`. -/
def RustlsConfig.into_server_config (P : Parsers) (fs : FS) (c : RustlsConfig) :
    Option ServerConfig :=
  match RustlsConfig.build_server_config P fs c with
  | .ok cfg => some cfg
  | .error _ => none

/-- Iterated calls to the `Keycert::key` getter, threading the keycert state and
summing the file reads performed. -/
def key_calls (fs : FS) : Nat → Keycert → Keycert × Nat
  | 0, kc => (kc, 0)
  | n + 1, kc =>
    match Keycert.get_key fs kc with
    | (_, kc1, r) =>
      match key_calls fs n kc1 with
      | (kc2, rs) => (kc2, r + rs)

/-- Iterated calls to the `Keycert::cert` getter, threading the keycert state and
summing the file reads performed. -/
def cert_calls (fs : FS) : Nat → Keycert → Keycert × Nat
  | 0, kc => (kc, 0)
  | n + 1, kc =>
    match Keycert.get_cert fs kc with
    | (_, kc1, r) =>
      match cert_calls fs n kc1 with
      | (kc2, rs) => (kc2, r + rs)

/-! Concrete fixtures used by witnesses and counterexamples. -/

/-- Parsers that ignore their input: one certificate, one PKCS8 key. -/
def P0 : Parsers :=
  { certs := fun _ => .ok [[1, 2]],
    pkcs8_private_keys := fun _ => .ok [[7]],
    rsa_private_keys := fun _ => .ok [],
    any_supported_type := fun b => .ok b,
    read_trust_anchor := fun b => .ok b }

/-- Parsers that echo their input: the certificate list is the singleton of the
cert bytes, the PKCS8 key list is the singleton of the key bytes. -/
def P1 : Parsers :=
  { certs := fun cb => .ok [cb],
    pkcs8_private_keys := fun kb => .ok [kb],
    rsa_private_keys := fun _ => .ok [],
    any_supported_type := fun b => .ok b,
    read_trust_anchor := fun b => .ok b }

/-- Parsers whose PKCS8 result has three key blocks. -/
def P2 : Parsers :=
  { certs := fun cb => .ok [cb],
    pkcs8_private_keys := fun _ => .ok [[7], [8], [9]],
    rsa_private_keys := fun _ => .ok [],
    any_supported_type := fun b => .ok b,
    read_trust_anchor := fun b => .ok b }

/-- A filesystem on which every read fails. -/
def fs0 : FS := fun _ => .error .io

/-- A filesystem with an empty file at path "k". -/
def fs_empty_file : FS := fun p => if p = "k" then .ok [] else .error .io

/-- A filesystem with a one-byte file at path "k". -/
def fs_one_byte : FS := fun p => if p = "k" then .ok [5] else .error .io

/-- A keycert populated with in-memory key and cert bytes. -/
def kcX : Keycert := (Keycert.new.with_key [1]).with_cert [2]

/-- Another keycert populated with different in-memory key and cert bytes. -/
def kcY : Keycert := (Keycert.new.with_key [3]).with_cert [4]

/-- A keycert with in-memory bytes and a non-empty OCSP buffer. -/
def kcOcsp : Keycert :=
  { key_path := none, key := [3], cert_path := none, cert := [4], ocsp_resp := [9] }

/-- A concrete certified key used by resolver witnesses. -/
def ckA : CertifiedKey := { cert := [[1]], key := [1], ocsp := none, sct_list := none }

/-- Another concrete certified key used by resolver witnesses. -/
def ckF : CertifiedKey := { cert := [[2]], key := [2], ocsp := none, sct_list := none }

/-! Helper lemmas. -/

/-- `Keycert::key` with a non-empty buffer returns the buffer, leaves the state
unchanged and performs no file read. -/
theorem get_key_nonempty (fs : FS) (kc : Keycert) (h : kc.key ≠ []) :
    Keycert.get_key fs kc = (.ok kc.key, kc, 0) := by
  obtain ⟨kp, k, cp, c, o⟩ := kc
  cases k with
  | nil => exact absurd rfl h
  | cons a l => rfl

/-- `Keycert::key` with an empty buffer and a path whose read yields non-empty
data caches the data and reports one file read. -/
theorem get_key_empty_load (fs : FS) (kc : Keycert) (p : String) (d : Bytes)
    (hk : kc.key = []) (hp : kc.key_path = some p) (hd : fs p = .ok d) (hne : d ≠ []) :
    Keycert.get_key fs kc = (.ok d, { kc with key := d }, 1) := by
  obtain ⟨kp, k, cp, c, o⟩ := kc
  simp only at hk hp
  subst hk; subst hp
  unfold Keycert.get_key
  simp only
  rw [hd]
  cases d with
  | nil => exact absurd rfl hne
  | cons a l => rfl

/-- `Keycert::cert` with a non-empty buffer returns the buffer, leaves the state
unchanged and performs no file read. -/
theorem get_cert_nonempty (fs : FS) (kc : Keycert) (h : kc.cert ≠ []) :
    Keycert.get_cert fs kc = (.ok kc.cert, kc, 0) := by
  obtain ⟨kp, k, cp, c, o⟩ := kc
  cases c with
  | nil => exact absurd rfl h
  | cons a l => rfl

/-- `Keycert::cert` with an empty buffer and a path whose read yields non-empty
data caches the data and reports one file read. -/
theorem get_cert_empty_load (fs : FS) (kc : Keycert) (p : String) (d : Bytes)
    (hc : kc.cert = []) (hp : kc.cert_path = some p) (hd : fs p = .ok d) (hne : d ≠ []) :
    Keycert.get_cert fs kc = (.ok d, { kc with cert := d }, 1) := by
  obtain ⟨kp, k, cp, c, o⟩ := kc
  simp only at hc hp
  subst hc; subst hp
  unfold Keycert.get_cert
  simp only
  rw [hd]
  cases d with
  | nil => exact absurd rfl hne
  | cons a l => rfl

/-- `Keycert::key` never changes the OCSP buffer. -/
theorem get_key_ocsp (fs : FS) (kc : Keycert) :
    (Keycert.get_key fs kc).2.1.ocsp_resp = kc.ocsp_resp := by
  unfold Keycert.get_key
  split
  · split <;> rfl
  · rfl
  · rfl

/-- `Keycert::cert` never changes the OCSP buffer. -/
theorem get_cert_ocsp (fs : FS) (kc : Keycert) :
    (Keycert.get_cert fs kc).2.1.ocsp_resp = kc.ocsp_resp := by
  unfold Keycert.get_cert
  split
  · split <;> rfl
  · rfl
  · rfl

/-- Private-key selection never changes the OCSP buffer. -/
theorem parse_private_key_ocsp (P : Parsers) (fs : FS) (kc : Keycert) :
    (Keycert.parse_private_key P fs kc).2.1.ocsp_resp = kc.ocsp_resp := by
  unfold Keycert.parse_private_key
  split
  case _ e kc1 r heq =>
    have := get_key_ocsp fs kc
    rw [heq] at this
    exact this
  case _ kb kc1 r heq =>
    have h1 := get_key_ocsp fs kc
    rw [heq] at h1
    split
    · exact h1
    · exact h1
    · split
      case _ e kc2 r2 heq2 =>
        have h2 := get_key_ocsp fs kc1
        rw [heq2] at h2
        exact h2.trans h1
      case _ kb2 kc2 r2 heq2 =>
        have h2 := get_key_ocsp fs kc1
        rw [heq2] at h2
        split <;> exact h2.trans h1

/-- Looking up the key just inserted finds the inserted value. -/
theorem lookupAssoc_insertAssoc_self {α : Type} (m : List (String × α)) (n : String) (v : α) :
    lookupAssoc (insertAssoc m n v) n = some v := by
  induction m with
  | nil => simp [insertAssoc, lookupAssoc]
  | cons hd tl ih =>
    obtain ⟨n₀, w⟩ := hd
    by_cases h : n₀ = n <;> simp [insertAssoc, lookupAssoc, h, ih]

/-- Registering twice under the same name leaves only the second keycert under
that name. -/
theorem keycerts_after_double_insert (c : RustlsConfig) (h : String) (X Y : Keycert) :
    lookupAssoc ((c.keycert h X).keycert h Y).keycerts h = some Y := by
  simp only [RustlsConfig.keycert]
  exact lookupAssoc_insertAssoc_self _ h Y

/-- The materialization loop surfaces the error of the first failing entry when
every earlier entry materializes successfully. -/
theorem materialize_all_first_error (P : Parsers) (fs : FS)
    (pre : List (String × Keycert)) (n : String) (kc : Keycert)
    (post : List (String × Keycert)) (e : TlsError)
    (hpre : ∀ q ∈ pre, ∃ ck, (Keycert.build_certified_key P fs q.2).1 = .ok ck)
    (hkc : (Keycert.build_certified_key P fs kc).1 = .error e) :
    materialize_all P fs (pre ++ (n, kc) :: post) = .error e := by
  induction pre with
  | nil => simp [materialize_all, hkc]
  | cons hd tl ih =>
    obtain ⟨m, q⟩ := hd
    obtain ⟨ck, hck⟩ := hpre (m, q) (by simp)
    have ihtl := ih (fun q hq => hpre q (List.mem_cons_of_mem _ hq))
    simp [materialize_all, hck, ihtl]

/-- A successful materialization loop maps every registered name to the
materialization of its keycert. -/
theorem materialize_all_lookup (P : Parsers) (fs : FS)
    (m : List (String × Keycert)) (cks : List (String × CertifiedKey))
    (hm : materialize_all P fs m = .ok cks) (n : String) (kc : Keycert)
    (hl : lookupAssoc m n = some kc) :
    ∃ ck, (Keycert.build_certified_key P fs kc).1 = .ok ck ∧
      lookupAssoc cks n = some ck := by
  induction m generalizing cks with
  | nil => simp [lookupAssoc] at hl
  | cons hd tl ih =>
    obtain ⟨n₀, k₀⟩ := hd
    unfold materialize_all at hm
    rcases h₀ : (Keycert.build_certified_key P fs k₀).1 with e | ck₀ <;> rw [h₀] at hm
    · exact absurd hm (by simp)
    · rcases hrest : materialize_all P fs tl with e | cks₀ <;> rw [hrest] at hm
      · exact absurd hm (by simp)
      · have hcks : cks = (n₀, ck₀) :: cks₀ := (Except.ok.inj hm).symm
        subst hcks
        by_cases hn : n₀ = n
        · subst hn
          simp only [lookupAssoc, if_pos rfl] at hl ⊢
          obtain rfl : k₀ = kc := Option.some.inj hl
          exact ⟨ck₀, h₀, rfl⟩
        · simp only [lookupAssoc, if_neg hn] at hl ⊢
          exact ih cks₀ hrest hl

/-- Inversion of a successful `build_server_config`: every stage materialized
successfully and the configuration is assembled from the results. -/
theorem build_server_config_ok (P : Parsers) (fs : FS) (c : RustlsConfig)
    (cfg : ServerConfig) (h : RustlsConfig.build_server_config P fs c = .ok cfg) :
    ∃ fb cks ca, materialize_fallback P fs c.fallback = .ok fb ∧
      materialize_all P fs c.keycerts = .ok cks ∧
      materialize_client_auth P c.client_auth = .ok ca ∧
      cfg = { client_auth := ca,
              cert_resolver := { fallback := fb, certified_keys := cks },
              alpn_protocols := ["h2", "http/1.1"] } := by
  unfold RustlsConfig.build_server_config at h
  rcases h1 : materialize_fallback P fs c.fallback with e | fb <;> rw [h1] at h
  · exact absurd h (by simp)
  · rcases h2 : materialize_all P fs c.keycerts with e | cks <;> rw [h2] at h
    · exact absurd h (by simp)
    · rcases h3 : materialize_client_auth P c.client_auth with e | ca <;> rw [h3] at h
      · exact absurd h (by simp)
      · exact ⟨fb, cks, ca, rfl, rfl, rfl, (Except.ok.inj h).symm⟩

/-- A sequence of `Keycert::key` calls on a keycert whose buffer is already
non-empty performs no file read at all. -/
theorem key_calls_nonempty (fs : FS) (n : Nat) (kc : Keycert) (h : kc.key ≠ []) :
    (key_calls fs n kc).2 = 0 := by
  induction n with
  | zero => rfl
  | succ n ih =>
    unfold key_calls
    rw [get_key_nonempty fs kc h]
    simp [ih]

/-- A sequence of `Keycert::cert` calls on a keycert whose buffer is already
non-empty performs no file read at all. -/
theorem cert_calls_nonempty (fs : FS) (n : Nat) (kc : Keycert) (h : kc.cert ≠ []) :
    (cert_calls fs n kc).2 = 0 := by
  induction n with
  | zero => rfl
  | succ n ih =>
    unfold cert_calls
    rw [get_cert_nonempty fs kc h]
    simp [ih]

/-! Claim theorems. -/

/-- C1 (counterexample): the claim says converting a `RustlsConfig` into the shared
server-configuration object never panics on malformed input. On a config whose
fallback keycert has no bytes and no paths, `build_server_config` fails with the
empty-cert error and the `From` conversion's `unwrap()` panics (modelled as `none`),
so the claim as stated is false. -/
theorem C1_counterexample :
    RustlsConfig.build_server_config P0 fs0 (RustlsConfig.new (some Keycert.new)) =
      .error (.other "empty cert")
  ∧ RustlsConfig.into_server_config P0 fs0 (RustlsConfig.new (some Keycert.new)) =
      none := by decide

/-- C1 (amended): `build_server_config` surfaces every materialization failure as a
synchronous `Err` return; the `From<RustlsConfig> for Arc<ServerConfig>` conversion
unwraps that result, so it yields the configuration exactly when building succeeds
and panics (yields no configuration) exactly when building fails. -/
theorem C1_from_conversion_unwraps (P : Parsers) (fs : FS) (c : RustlsConfig) :
    (∀ e, RustlsConfig.build_server_config P fs c = .error e →
        RustlsConfig.into_server_config P fs c = none)
  ∧ (∀ cfg, RustlsConfig.build_server_config P fs c = .ok cfg →
        RustlsConfig.into_server_config P fs c = some cfg) := by
  constructor <;> intro x h <;> unfold RustlsConfig.into_server_config <;> rw [h]

/-- C1 (witness): on a config whose fallback cert path cannot be opened, building
fails with the I/O error and the conversion panics. -/
theorem C1_witness :
    RustlsConfig.into_server_config P0 fs0
      (RustlsConfig.new (some (Keycert.new.with_cert_path "k"))) = none :=
  (C1_from_conversion_unwraps P0 fs0
    (RustlsConfig.new (some (Keycert.new.with_cert_path "k")))).1 .io (by decide)

/-- C2: a supplied hostname that is a key of the map resolves to that hostname's
identity (never the fallback); with no hostname, or an unregistered hostname, the
fallback is returned when present; with neither a match nor a fallback, resolve
returns nothing. -/
theorem C2_resolve_cases (r : CertResolver) :
    (∀ h ck, lookupAssoc r.certified_keys h = some ck →
        CertResolver.resolve r (some h) = some ck)
  ∧ CertResolver.resolve r none = r.fallback
  ∧ (∀ h, lookupAssoc r.certified_keys h = none →
        CertResolver.resolve r (some h) = r.fallback)
  ∧ (r.fallback = none → ∀ h, lookupAssoc r.certified_keys h = none →
        CertResolver.resolve r (some h) = none) := by
  refine ⟨?_, ?_, ?_, ?_⟩
  · intro h ck hl
    simp [CertResolver.resolve, Option.bind, hl]
  · simp [CertResolver.resolve, Option.bind]
  · intro h hl
    simp [CertResolver.resolve, Option.bind, hl]
  · intro hf h hl
    simp [CertResolver.resolve, Option.bind, hl, hf]

/-- C2 (witness): on a concrete resolver with fallback `ckF` and `"a" ↦ ckA`, the
registered hostname resolves to `ckA`. -/
theorem C2_witness :
    CertResolver.resolve { fallback := some ckF, certified_keys := [("a", ckA)] }
      (some "a") = some ckA :=
  (C2_resolve_cases { fallback := some ckF, certified_keys := [("a", ckA)] }).1
    "a" ckA (by decide)

/-- C3: finalize is all-or-nothing: a failure of the fallback, of any registered
entry (the first failing entry in iteration order, when all earlier entries
succeed), or of the client-auth policy aborts `build_server_config` with that
error; a success means every stage materialized and the configuration is exactly
their assembly. -/
theorem C3_finalize_all_or_nothing (P : Parsers) (fs : FS) (c : RustlsConfig) :
    (∀ e, materialize_fallback P fs c.fallback = .error e →
        RustlsConfig.build_server_config P fs c = .error e)
  ∧ (∀ fb e, materialize_fallback P fs c.fallback = .ok fb →
        materialize_all P fs c.keycerts = .error e →
        RustlsConfig.build_server_config P fs c = .error e)
  ∧ (∀ fb cks e, materialize_fallback P fs c.fallback = .ok fb →
        materialize_all P fs c.keycerts = .ok cks →
        materialize_client_auth P c.client_auth = .error e →
        RustlsConfig.build_server_config P fs c = .error e)
  ∧ (∀ pre n kc post e, c.keycerts = pre ++ (n, kc) :: post →
        (∀ q ∈ pre, ∃ ck, (Keycert.build_certified_key P fs q.2).1 = .ok ck) →
        (Keycert.build_certified_key P fs kc).1 = .error e →
        materialize_all P fs c.keycerts = .error e)
  ∧ (∀ cfg, RustlsConfig.build_server_config P fs c = .ok cfg →
        ∃ fb cks ca, materialize_fallback P fs c.fallback = .ok fb ∧
          materialize_all P fs c.keycerts = .ok cks ∧
          materialize_client_auth P c.client_auth = .ok ca ∧
          cfg = { client_auth := ca,
                  cert_resolver := { fallback := fb, certified_keys := cks },
                  alpn_protocols := ["h2", "http/1.1"] }) := by
  refine ⟨?_, ?_, ?_, ?_, ?_⟩
  · intro e h
    unfold RustlsConfig.build_server_config
    rw [h]
  · intro fb e h1 h2
    unfold RustlsConfig.build_server_config
    rw [h1, h2]
  · intro fb cks e h1 h2 h3
    unfold RustlsConfig.build_server_config
    rw [h1, h2, h3]
  · intro pre n kc post e hEq hpre hkc
    rw [hEq]
    exact materialize_all_first_error P fs pre n kc post e hpre hkc
  · exact fun cfg h => build_server_config_ok P fs c cfg h

/-- C3 (witness): a config whose fallback keycert is empty aborts the whole build
with the empty-cert error. -/
theorem C3_witness :
    RustlsConfig.build_server_config P0 fs0 (RustlsConfig.new (some Keycert.new)) =
      .error (.other "empty cert") :=
  (C3_finalize_all_or_nothing P0 fs0 (RustlsConfig.new (some Keycert.new))).1
    (.other "empty cert") (by decide)

/-- C4: key materialization tries PKCS8 first and uses its first key when it yields
any; RSA parsing is consulted only when PKCS8 yields no keys; when neither yields a
key, it fails with "failed to parse tls private keys". -/
theorem C4_pkcs8_before_rsa (P : Parsers) (fs : FS) (kc : Keycert) :
    (∀ kb kc1 r k ks, Keycert.get_key fs kc = (.ok kb, kc1, r) →
        P.pkcs8_private_keys kb = .ok (k :: ks) →
        Keycert.parse_private_key P fs kc = (.ok k, kc1, r))
  ∧ (∀ kb kc1 r kb2 kc2 r2 k ks, Keycert.get_key fs kc = (.ok kb, kc1, r) →
        P.pkcs8_private_keys kb = .ok [] →
        Keycert.get_key fs kc1 = (.ok kb2, kc2, r2) →
        P.rsa_private_keys kb2 = .ok (k :: ks) →
        Keycert.parse_private_key P fs kc = (.ok k, kc2, r + r2))
  ∧ (∀ kb kc1 r kb2 kc2 r2, Keycert.get_key fs kc = (.ok kb, kc1, r) →
        P.pkcs8_private_keys kb = .ok [] →
        Keycert.get_key fs kc1 = (.ok kb2, kc2, r2) →
        P.rsa_private_keys kb2 = .ok [] →
        Keycert.parse_private_key P fs kc =
          (.error (.other "failed to parse tls private keys"), kc2, r + r2)) := by
  refine ⟨?_, ?_, ?_⟩
  · intro kb kc1 r k ks h1 h2
    unfold Keycert.parse_private_key
    rw [h1]
    simp only [h2]
  · intro kb kc1 r kb2 kc2 r2 k ks h1 h2 h3 h4
    unfold Keycert.parse_private_key
    rw [h1]
    simp only [h2]
    rw [h3]
    simp only [h4]
  · intro kb kc1 r kb2 kc2 r2 h1 h2 h3 h4
    unfold Keycert.parse_private_key
    rw [h1]
    simp only [h2]
    rw [h3]
    simp only [h4]

/-- C4 (witness): with key bytes already in memory and a PKCS8 parser yielding one
key, the selection returns that key without consulting the RSA parser's result. -/
theorem C4_witness :
    Keycert.parse_private_key P0 fs0 kcY = (.ok [7], kcY, 0) :=
  (C4_pkcs8_before_rsa P0 fs0 kcY).1 [3] kcY 0 [7] [] (by decide) (by decide)

/-- C5 (counterexample): the claim says the key file is read at most once over any
sequence of `get_key_bytes` calls. With a key path set and an empty file at that
path, the buffer stays empty, so each of two successive calls re-reads the file:
two reads, refuting "at most once". -/
theorem C5_counterexample :
    (Keycert.new.with_key_path "k").key_path = some "k"
  ∧ (key_calls fs_empty_file 2 (Keycert.new.with_key_path "k")).2 = 2 := by decide

/-- C5 (amended): when the file at the configured path holds non-empty data (or
the buffer is already populated), the file is read at most once over any sequence
of getter calls — the first load fills the buffer and later calls reuse it;
symmetric for the certificate file. When the read yields no bytes, the buffer
stays empty and each call re-attempts the read. -/
theorem C5_read_at_most_once (fs : FS) (kc : Keycert) (p : String) (d : Bytes) (n : Nat) :
    (kc.key_path = some p → fs p = .ok d → d ≠ [] → (key_calls fs n kc).2 ≤ 1)
  ∧ (kc.cert_path = some p → fs p = .ok d → d ≠ [] → (cert_calls fs n kc).2 ≤ 1) := by
  constructor
  · intro hp hd hne
    by_cases hk : kc.key = []
    · cases n with
      | zero => exact Nat.zero_le 1
      | succ m =>
        unfold key_calls
        rw [get_key_empty_load fs kc p d hk hp hd hne]
        have h0 : ({ kc with key := d } : Keycert).key ≠ [] := hne
        rcases hcall : key_calls fs m { kc with key := d } with ⟨kc2, rs⟩
        have hrs : rs = 0 := by
          have := key_calls_nonempty fs m { kc with key := d } h0
          rw [hcall] at this
          exact this
        simp [hcall, hrs]
    · have := key_calls_nonempty fs n kc hk
      omega
  · intro hp hd hne
    by_cases hk : kc.cert = []
    · cases n with
      | zero => exact Nat.zero_le 1
      | succ m =>
        unfold cert_calls
        rw [get_cert_empty_load fs kc p d hk hp hd hne]
        have h0 : ({ kc with cert := d } : Keycert).cert ≠ [] := hne
        rcases hcall : cert_calls fs m { kc with cert := d } with ⟨kc2, rs⟩
        have hrs : rs = 0 := by
          have := cert_calls_nonempty fs m { kc with cert := d } h0
          rw [hcall] at this
          exact this
        simp [hcall, hrs]
    · have := cert_calls_nonempty fs n kc hk
      omega

/-- C5 (witness): with a one-byte file at the key path, three successive getter
calls perform at most one read. -/
theorem C5_witness :
    (key_calls fs_one_byte 3 (Keycert.new.with_key_path "k")).2 ≤ 1 :=
  (C5_read_at_most_once fs_one_byte (Keycert.new.with_key_path "k") "k" [5] 3).1
    (by decide) (by decide) (by decide)

/-- C6: with empty key bytes and no key path, the key getter fails with the
"empty key" error and performs no file I/O (zero reads); symmetric for the
certificate getter with "empty cert". -/
theorem C6_empty_key_empty_cert (fs : FS) (kc : Keycert) :
    (kc.key = [] → kc.key_path = none →
        Keycert.get_key fs kc = (.error (.other "empty key"), kc, 0))
  ∧ (kc.cert = [] → kc.cert_path = none →
        Keycert.get_cert fs kc = (.error (.other "empty cert"), kc, 0)) := by
  constructor
  · intro hk hp
    obtain ⟨kp, k, cp, c, o⟩ := kc
    simp only at hk hp
    subst hk; subst hp
    rfl
  · intro hc hp
    obtain ⟨kp, k, cp, c, o⟩ := kc
    simp only at hc hp
    subst hc; subst hp
    rfl

/-- C6 (witness): a freshly constructed keycert fails its key getter with the
"empty key" error and zero reads. -/
theorem C6_witness :
    Keycert.get_key fs0 Keycert.new = (.error (.other "empty key"), Keycert.new, 0) :=
  (C6_empty_key_empty_cert fs0 Keycert.new).1 rfl rfl

/-- C7: registration is last-write-wins per hostname: registering X then Y under
the same hostname, then building, yields a resolver that resolves that hostname to
the identity materialized from Y, never to a distinct identity from X. -/
theorem C7_last_registration_wins (P : Parsers) (fs : FS) (c : RustlsConfig)
    (h : String) (X Y : Keycert) (ckY : CertifiedKey) (cfg : ServerConfig)
    (hY : (Keycert.build_certified_key P fs Y).1 = .ok ckY)
    (hb : RustlsConfig.build_server_config P fs ((c.keycert h X).keycert h Y) = .ok cfg) :
    CertResolver.resolve cfg.cert_resolver (some h) = some ckY ∧
    (∀ ckX, (Keycert.build_certified_key P fs X).1 = .ok ckX → ckX ≠ ckY →
      CertResolver.resolve cfg.cert_resolver (some h) ≠ some ckX) := by
  obtain ⟨fb, cks, ca, h1, h2, h3, rfl⟩ := build_server_config_ok P fs _ cfg hb
  have hlook := keycerts_after_double_insert c h X Y
  obtain ⟨ck, hck, hcks⟩ := materialize_all_lookup P fs _ cks h2 h Y hlook
  obtain rfl : ck = ckY := Except.ok.inj (hck.symm.trans hY)
  have hres : CertResolver.resolve
      ({ fallback := fb, certified_keys := cks } : CertResolver) (some h) = some ck := by
    simp [CertResolver.resolve, Option.bind, hcks]
  refine ⟨hres, ?_⟩
  intro ckX hX hne hcontra
  rw [hres] at hcontra
  exact hne (Option.some.inj hcontra).symm

/-- The identity the echo parsers `P1` materialize from `kcY`. -/
def ckY1 : CertifiedKey := { cert := [[4]], key := [3], ocsp := none, sct_list := none }

/-- The configuration `P1` builds from registering `kcX` then `kcY` under "a". -/
def cfg7 : ServerConfig :=
  { client_auth := .noClientAuth,
    cert_resolver := { fallback := none, certified_keys := [("a", ckY1)] },
    alpn_protocols := ["h2", "http/1.1"] }

/-- C7 (witness): registering `kcX` then `kcY` under `"a"` and building with the
echo parsers resolves `"a"` to the identity materialized from `kcY`. -/
theorem C7_witness :
    CertResolver.resolve cfg7.cert_resolver (some "a") = some ckY1 :=
  (C7_last_registration_wins P1 fs0 (RustlsConfig.new none) "a" kcX kcY ckY1 cfg7
    (by decide) (by decide)).1

/-- C8: every successful build produces a configuration whose ALPN protocol list
is exactly ["h2", "http/1.1"] in that order. -/
theorem C8_alpn_list (P : Parsers) (fs : FS) (c : RustlsConfig) (cfg : ServerConfig)
    (hb : RustlsConfig.build_server_config P fs c = .ok cfg) :
    cfg.alpn_protocols = ["h2", "http/1.1"] := by
  obtain ⟨fb, cks, ca, _, _, _, rfl⟩ := build_server_config_ok P fs c cfg hb
  rfl

/-- The configuration `P1` builds from `kcY` as fallback with nothing registered. -/
def cfg8 : ServerConfig :=
  { client_auth := .noClientAuth,
    cert_resolver := { fallback := some ckY1, certified_keys := [] },
    alpn_protocols := ["h2", "http/1.1"] }

/-- C8 (witness): a concrete successful build has the fixed two-element ALPN
list. -/
theorem C8_witness : cfg8.alpn_protocols = ["h2", "http/1.1"] :=
  C8_alpn_list P1 fs0 (RustlsConfig.new (some kcY)) cfg8 (by decide)

/-- C9: a successfully materialized identity carries the OCSP bytes as `some`
exactly when the keycert's OCSP buffer is non-empty, and never carries an SCT
list. -/
theorem C9_ocsp_sct (P : Parsers) (fs : FS) (kc : Keycert) (ck : CertifiedKey)
    (kcF : Keycert) (r : Nat)
    (hb : Keycert.build_certified_key P fs kc = (.ok ck, kcF, r)) :
    ck.ocsp = (if kc.ocsp_resp = [] then none else some kc.ocsp_resp)
  ∧ ck.sct_list = none := by
  unfold Keycert.build_certified_key at hb
  split at hb
  · exact absurd hb (by simp)
  next cb kc1 r1 heq =>
    split at hb
    · exact absurd hb (by simp)
    next certList hcerts =>
      split at hb
      · exact absurd hb (by simp)
      next k kc2 r2 heq2 =>
        split at hb
        · exact absurd hb (by simp)
        next sk hsk =>
          have hck : ck = { cert := certList, key := sk,
                            ocsp := if kc2.ocsp_resp.isEmpty then none
                                    else some kc2.ocsp_resp,
                            sct_list := none } := by
            have := congrArg Prod.fst hb
            exact (Except.ok.inj this).symm
          have hocsp : kc2.ocsp_resp = kc.ocsp_resp := by
            have ha := get_cert_ocsp fs kc
            rw [heq] at ha
            have hb2 := parse_private_key_ocsp P fs kc1
            rw [heq2] at hb2
            exact hb2.trans ha
          subst hck
          refine ⟨?_, rfl⟩
          rw [hocsp]
          cases kc.ocsp_resp with
          | nil => simp
          | cons a l => simp

/-- C9 (witness): with a non-empty OCSP buffer the materialized identity carries
`some` of those bytes and no SCT list. -/
theorem C9_witness :
    ({ cert := [[4]], key := [3], ocsp := some [9], sct_list := none }
        : CertifiedKey).ocsp =
      (if kcOcsp.ocsp_resp = [] then none else some kcOcsp.ocsp_resp)
  ∧ ({ cert := [[4]], key := [3], ocsp := some [9], sct_list := none }
        : CertifiedKey).sct_list = none :=
  C9_ocsp_sct P1 fs0 kcOcsp
    { cert := [[4]], key := [3], ocsp := some [9], sct_list := none }
    kcOcsp 0 (by decide)

/-- C10: when the key bytes yield several parseable key blocks, materialization
silently selects the first block — the first PKCS8 block when PKCS8 yields any,
else the first RSA block — and ignores all later blocks. -/
theorem C10_first_key_block (P : Parsers) (fs : FS) (kc : Keycert) :
    (∀ kb kc1 r k ks, Keycert.get_key fs kc = (.ok kb, kc1, r) →
        P.pkcs8_private_keys kb = .ok (k :: ks) →
        (Keycert.parse_private_key P fs kc).1 = .ok k)
  ∧ (∀ kb kc1 r kb2 kc2 r2 k ks, Keycert.get_key fs kc = (.ok kb, kc1, r) →
        P.pkcs8_private_keys kb = .ok [] →
        Keycert.get_key fs kc1 = (.ok kb2, kc2, r2) →
        P.rsa_private_keys kb2 = .ok (k :: ks) →
        (Keycert.parse_private_key P fs kc).1 = .ok k) := by
  constructor
  · intro kb kc1 r k ks h1 h2
    unfold Keycert.parse_private_key
    rw [h1]
    simp only [h2]
  · intro kb kc1 r kb2 kc2 r2 k ks h1 h2 h3 h4
    unfold Keycert.parse_private_key
    rw [h1]
    simp only [h2]
    rw [h3]
    simp only [h4]

/-- C10 (witness): a PKCS8 parse yielding three blocks materializes the first
block and ignores the other two. -/
theorem C10_witness :
    (Keycert.parse_private_key P2 fs0 kcY).1 = .ok [7] :=
  (C10_first_key_block P2 fs0 kcY).1 [3] kcY 0 [7] [[8], [9]] (by decide) (by decide)

end Salvo
